import Mathlib

/-!
Verification of the stateless Telegram session handler in `src/main.py`
(goluntsov/bot-creator).

The handler logic is shallowly embedded: every Python function of the
webhook execution path becomes a pure Lean function of the same name.
External collaborators are modelled as explicit inputs/outputs:

* the agent registry (`get_agents`, a Python dict ordered by insertion)
  becomes an association list `Agents`;
* the S3 read performed by one invocation becomes a `ReadResult` value
  (a stored record, a missing key, a malformed payload that fails
  `json.loads`, or a store error — the last three all raise inside
  `get_dialog_state` and are caught there);
* the one possible Responses-API call becomes an `AiResult` value,
  `Except` error carrying `str(e)` of the raised exception;
* every outbound side effect (Telegram send/edit/answer/typing, the
  Responses-API invocation, the S3 write attempt) is recorded, in
  program order, in a trace of `Action`s. Delivery calls are
  fire-and-forget in the source (their HTTP results never steer control
  flow), so recording them loses nothing.

Python truthiness tests (`if not agent_id`, `if not chat_id or not text`)
are modelled by `truthyStr` / `truthyInt`.
-/

set_option autoImplicit false

namespace BotCreator

/-- The agent registry: `agent_id → display name`, in insertion order
(Python dicts preserve it; `list(agents.keys())[0]` is the first entry). -/
abbrev Agents := List (String × String)

/-- Python truthiness of an optional string: `None` and `""` are falsy. -/
def truthyStr : Option String → Bool
  | none => false
  | some s => decide (s ≠ "")

/-- Python truthiness of an optional integer: `None` and `0` are falsy. -/
def truthyInt : Option Int → Bool
  | none => false
  | some n => decide (n ≠ 0)

/-- The per-conversation session record stored at `dialogs/<chat_id>.json`.
Fields mirror the JSON keys written by the source; `.get` with its default
on a well-formed record is captured by the `Option`/`Nat` field types. -/
structure DialogState where
  previous_response_id : Option String
  message_count : Nat
  agent_id : Option String
deriving Repr, DecidableEq

/-- Outcome of the single S3 read an invocation can perform.
`notFound`, `malformed` (payload rejected by `json.loads`) and
`storeError` all raise inside `get_dialog_state` and are caught there. -/
inductive ReadResult where
  | ok (state : DialogState)
  | notFound
  | malformed
  | storeError
deriving Repr, DecidableEq

/-- Outcome of the Responses-API call: `ok (response_id, output_text)`
or the `str(e)` of a raised exception. -/
abbrev AiResult := Except String (String × String)

/-- One button of an inline keyboard. -/
structure InlineButton where
  text : String
  callback_data : String
deriving Repr, DecidableEq

/-- Reply markup attached to an outbound message: the static main-menu
reply keyboard of `get_main_menu`, or an inline keyboard. -/
inductive Markup where
  | mainMenu
  | inline (rows : List (List InlineButton))
deriving Repr, DecidableEq

/-- One observable side effect, recorded in program order. -/
inductive Action where
  | sendMessage (chat_id : Int) (text : String) (markup : Option Markup)
  | answerCallback (callback_id : Option String) (text : Option String)
  | editMessage (chat_id : Int) (message_id : Option Int) (text : String)
      (markup : Option Markup)
  | sendTyping (chat_id : Int)
  | aiCall (agent_id : String) (input : String)
      (previous_response_id : Option String)
  | saveState (chat_id : Int) (state : DialogState)
deriving Repr, DecidableEq

/-- `list(agents.keys())[0] if agents else None`. -/
def defaultAgentId (agents : Agents) : Option String :=
  agents.head?.map Prod.fst

/-- `agents.get(agent_id)`: first binding of the key, if any. -/
def lookupAgent (agents : Agents) (agent_id : String) : Option String :=
  (agents.find? (fun p => p.1 == agent_id)).map Prod.snd

/-- `get_dialog_state` (src/main.py:59-68): returns the stored record;
any retrieval failure is caught and yields the defaulted state. -/
def get_dialog_state (agents : Agents) (stored : ReadResult) : DialogState :=
  match stored with
  | .ok state => state
  | _ =>
      { previous_response_id := none
        message_count := 0
        agent_id := defaultAgentId agents }

/-- `get_agents_inline_keyboard` (src/main.py:180-197): one row with one
button per registry entry; the current agent is marked with a check mark. -/
def get_agents_inline_keyboard (agents : Agents)
    (current_agent_id : Option String) : Markup :=
  .inline (agents.map fun p =>
    [{ text := if current_agent_id = some p.1 then "✅ " ++ p.2 else p.2
       callback_data := "agent:" ++ p.1 }])

def noAgentText : String :=
  "❌ Агент не выбран. Используйте /agents для выбора агента."

def aiErrorText (e : String) : String := "❌ Ошибка: " ++ e

/-- `get_ai_response` (src/main.py:94-121): loads state, refuses when no
agent is selected, calls the Responses API, persists the advanced state on
success, and converts any raised exception into an error reply string. -/
def get_ai_response (agents : Agents) (stored : ReadResult) (ai : AiResult)
    (message : String) (chat_id : Int) : String × List Action :=
  let state := get_dialog_state agents stored
  match state.agent_id with
  | none => (noAgentText, [])
  | some agent_id =>
      if agent_id = "" then (noAgentText, [])
      else
        match ai with
        | .ok (response_id, output_text) =>
            (output_text,
             [.aiCall agent_id message state.previous_response_id,
              .saveState chat_id
                { previous_response_id := some response_id
                  message_count := state.message_count + 1
                  agent_id := some agent_id }])
        | .error e =>
            (aiErrorText e, [.aiCall agent_id message state.previous_response_id])

def welcomeText (agent_name : String) : String :=
  "👋 *Привет!* Я AI-ассистент на базе YandexGPT.\n\n" ++
  "🧠 Я запоминаю контекст нашего разговора.\n\n" ++
  "🤖 *Текущий агент:* " ++ agent_name ++ "\n\n" ++
  "*Доступные команды:*\n" ++
  "🆕 *Новый диалог* — сбросить контекст\n" ++
  "🤖 *Агенты* — выбрать агента\n" ++
  "📊 *Статус* — информация о диалоге\n" ++
  "❓ *Помощь* — справка\n\n" ++
  "Просто напиши мне сообщение! 💬"

def newDialogText : String :=
  "🆕 *Диалог сброшен!*\n\nКонтекст очищен. Начинаем новый разговор."

def agentsPromptText : String :=
  "🤖 *Выберите агента:*\n\nКаждый агент имеет свои настройки, промпт и инструменты."

def statusText (agent_name : String) (msg_count : Nat) (has_context : String) :
    String :=
  "📊 *Статус диалога*\n\n" ++
  "🤖 Агент: " ++ agent_name ++ "\n" ++
  "💬 Сообщений: " ++ toString msg_count ++ "\n" ++
  "🧠 Контекст сохранён: " ++ has_context

def helpText : String :=
  "❓ *Справка*\n\n" ++
  "Я — AI-ассистент с памятью. Я помню наш разговор " ++
  "и могу отвечать с учётом контекста.\n\n" ++
  "*Команды:*\n" ++
  "• /new — начать новый диалог\n" ++
  "• /agents — выбрать агента\n" ++
  "• /status — статус диалога\n" ++
  "• /help — эта справка\n\n" ++
  "*Агенты:*\n" ++
  "Вы можете переключаться между разными агентами. " ++
  "Каждый агент имеет свой промпт и инструменты.\n\n" ++
  "💡 *Совет:* При смене агента контекст диалога сохраняется!"

def selectedAgentText (agent_name : String) : String :=
  "🤖 *Выбран агент:* " ++ agent_name ++ "\n\nТеперь можете начать диалог!"

/-- The dict returned by the router functions: the keys that occur are
`ok`, `action`, `message` and `agent_id` (absent keys are `none`). -/
structure RouterResult where
  ok : Bool
  action : Option String
  message : Option String
  agent_id : Option String
deriving Repr, DecidableEq

/-- `agents.get(agent_id, "Не выбран") if agent_id else "Не выбран"`. -/
def agentDisplayName (agents : Agents) (agent_id : Option String) : String :=
  if truthyStr agent_id then
    (lookupAgent agents (agent_id.getD "")).getD "Не выбран"
  else "Не выбран"

/-- `handle_command` (src/main.py:200-292): returns `none` when the text is
not one of the command literals, otherwise the branch result together with
the side effects it performed, in program order. -/
def handle_command (agents : Agents) (stored : ReadResult) (chat_id : Int)
    (command : String) : Option RouterResult × List Action :=
  if command ∈ ["/start"] then
    let state := get_dialog_state agents stored
    let agent_id :=
      if ¬ truthyStr state.agent_id ∧ agents ≠ [] then defaultAgentId agents
      else state.agent_id
    (some { ok := true, action := some "start", message := none, agent_id := none },
     [.saveState chat_id
        { previous_response_id := none, message_count := 0, agent_id := agent_id },
      .sendMessage chat_id (welcomeText (agentDisplayName agents agent_id))
        (some .mainMenu)])
  else if command ∈ ["🆕 Новый диалог", "/new"] then
    let state := get_dialog_state agents stored
    (some { ok := true, action := some "new", message := none, agent_id := none },
     [.saveState chat_id
        { previous_response_id := none, message_count := 0,
          agent_id := state.agent_id },
      .sendMessage chat_id newDialogText (some .mainMenu)])
  else if command ∈ ["🤖 Агенты", "/agents"] then
    let state := get_dialog_state agents stored
    (some { ok := true, action := some "agents", message := none, agent_id := none },
     [.sendMessage chat_id agentsPromptText
        (some (get_agents_inline_keyboard agents state.agent_id))])
  else if command ∈ ["/status", "📊 Статус"] then
    let state := get_dialog_state agents stored
    let has_context := if truthyStr state.previous_response_id then "✅ Да" else "❌ Нет"
    (some { ok := true, action := some "status", message := none, agent_id := none },
     [.sendMessage chat_id
        (statusText (agentDisplayName agents state.agent_id) state.message_count
          has_context)
        (some .mainMenu)])
  else if command ∈ ["/help", "❓ Помощь"] then
    (some { ok := true, action := some "help", message := none, agent_id := none },
     [.sendMessage chat_id helpText (some .mainMenu)])
  else (none, [])

/-- The fields `handle_callback_query` reads from `callback_query`:
`id`, `data` (default `""`), `message.chat.id`, `message.message_id`. -/
structure CallbackQuery where
  id : Option String
  data : String
  chat_id : Option Int
  message_id : Option Int
deriving Repr, DecidableEq

/-- `handle_callback_query` (src/main.py:295-339). -/
def handle_callback_query (agents : Agents) (stored : ReadResult)
    (cq : CallbackQuery) : RouterResult × List Action :=
  if ¬ truthyInt cq.chat_id ∨ cq.data = "" then
    ({ ok := true, action := none, message := some "Invalid callback",
       agent_id := none }, [])
  else if cq.data.take 6 == "agent:" then
    let agent_id := cq.data.drop 6
    match lookupAgent agents agent_id with
    | none =>
        ({ ok := false, action := none, message := some "Agent not found",
           agent_id := none },
         [.answerCallback cq.id (some "❌ Агент не найден")])
    | some agent_name =>
        let state := get_dialog_state agents stored
        let chat := cq.chat_id.getD 0
        let first :=
          if state.agent_id ≠ some agent_id then
            [Action.saveState chat
              { previous_response_id := none, message_count := 0,
                agent_id := some agent_id },
             Action.answerCallback cq.id (some "✅ Агент изменён! Контекст сброшен.")]
          else
            [Action.answerCallback cq.id (some "ℹ️ Этот агент уже выбран")]
        ({ ok := true, action := some "agent_selected", message := none,
           agent_id := some agent_id },
         first ++
         [.editMessage chat cq.message_id (selectedAgentText agent_name)
            (some (get_agents_inline_keyboard agents (some agent_id)))])
  else
    ({ ok := true, action := none, message := some "Unknown callback",
       agent_id := none },
     [.answerCallback cq.id none])

/-- The fields `process_message` reads from `update["message"]`. -/
structure MessageObj where
  chat_id : Option Int
  text : Option String
deriving Repr, DecidableEq

/-- A decoded webhook body: presence of the `callback_query` / `message`
keys and the fields the handler reads from them. -/
structure Update where
  callback_query : Option CallbackQuery
  message : Option MessageObj
deriving Repr, DecidableEq

/-- `process_message` (src/main.py:342-370). -/
def process_message (agents : Agents) (stored : ReadResult) (ai : AiResult)
    (update : Update) : RouterResult × List Action :=
  match update.callback_query with
  | some cq => handle_callback_query agents stored cq
  | none =>
    let chat_id := update.message.bind MessageObj.chat_id
    let text := (update.message.bind MessageObj.text).getD ""
    if ¬ truthyInt chat_id ∨ text = "" then
      ({ ok := true, action := none, message := some "No message to process",
         agent_id := none }, [])
    else
      let chat := chat_id.getD 0
      match handle_command agents stored chat text with
      | (some result, acts) => (result, acts)
      | (none, _) =>
          let ai_response := get_ai_response agents stored ai text chat
          ({ ok := true, action := none, message := some "Response sent",
             agent_id := none },
           .sendTyping chat :: ai_response.2 ++
           [.sendMessage chat ai_response.1 (some .mainMenu)])

/-- The `body` of the webhook event envelope. A string body goes through
one `json.loads` step, modelled by the `Except` outcome of that parse:
`.error e` is a string that is not valid JSON (`str(e)` of the raised
`JSONDecodeError`); an absent body defaults to `{}`. -/
inductive EventBody where
  | strBody (decoded : Except String Update)
  | objBody (update : Update)
  | noBody

/-- The response envelope of `handler`. On 200 the body is the router
result; on 500 it is `{"ok": false, "error": str(e)}`. -/
structure HandlerResponse where
  statusCode : Nat
  result : Option RouterResult
  error : Option String
deriving Repr, DecidableEq

/-- `handler` (src/main.py:373-397): decodes the body, runs
`process_message`, wraps the result in a 200 envelope; any exception —
in particular a `json.loads` failure on a string body — is caught at this
boundary and wrapped in a 500 envelope. -/
def handler (agents : Agents) (stored : ReadResult) (ai : AiResult)
    (event : EventBody) : HandlerResponse × List Action :=
  match event with
  | .strBody (.error e) =>
      ({ statusCode := 500, result := none, error := some e }, [])
  | .strBody (.ok update) =>
      let r := process_message agents stored ai update
      ({ statusCode := 200, result := some r.1, error := none }, r.2)
  | .objBody update =>
      let r := process_message agents stored ai update
      ({ statusCode := 200, result := some r.1, error := none }, r.2)
  | .noBody =>
      let r := process_message agents stored ai
        { callback_query := none, message := none }
      ({ statusCode := 200, result := some r.1, error := none }, r.2)

/-- Is an action an `answerCallbackQuery` call? -/
def isAck : Action → Bool
  | .answerCallback _ _ => true
  | _ => false

/-- Number of callback acknowledgements in a trace. -/
def countAcks (acts : List Action) : Nat := acts.countP isAck

/-- Is an action an attempted session-state write? -/
def isSave : Action → Bool
  | .saveState _ _ => true
  | _ => false

/-- The button rows of an inline keyboard (`[]` for the main menu). -/
def inlineRows : Markup → List (List InlineButton)
  | .mainMenu => []
  | .inline rows => rows

/-- Claim C7: for every conversation whose session record is absent, malformed,
or whose store read fails, `get_dialog_state` returns the defaulted state
(no continuation token, zero message count, agent defaulted to the first
registry entry, or `none` when the registry is empty); the failure is caught
inside the function and never surfaces to the caller. -/
theorem c7_load_failure_defaults (agents : Agents) (stored : ReadResult)
    (h : stored = .notFound ∨ stored = .malformed ∨ stored = .storeError) :
    get_dialog_state agents stored =
      { previous_response_id := none, message_count := 0,
        agent_id := agents.head?.map Prod.fst } := by
  rcases h with h | h | h <;> subst h <;> rfl

/-- Claim C7 witness: `get_dialog_state` on a malformed stored record with
registry `[("a1", "Helper")]` yields the defaulted state with agent `a1`. -/
theorem c7_witness :
    (ReadResult.malformed = ReadResult.notFound ∨
     ReadResult.malformed = ReadResult.malformed ∨
     ReadResult.malformed = ReadResult.storeError) ∧
    get_dialog_state [("a1", "Helper")] .malformed =
      { previous_response_id := none, message_count := 0, agent_id := some "a1" } :=
  ⟨Or.inr (Or.inl rfl),
   c7_load_failure_defaults [("a1", "Helper")] .malformed (Or.inr (Or.inl rfl))⟩

/-- Claim C8: for every free-form message whose loaded session has no
`agent_id`, `get_ai_response` performs no completion-API call (its action
trace is empty, for every possible client outcome `ai`) and returns the
fixed no-agent-selected reply directing the user to the `/agents` command. -/
theorem c8_no_agent_blocks_ai (agents : Agents) (stored : ReadResult)
    (ai : AiResult) (message : String) (chat_id : Int)
    (h : (get_dialog_state agents stored).agent_id = none) :
    get_ai_response agents stored ai message chat_id = (noAgentText, []) := by
  simp only [get_ai_response]
  rw [h]

/-- Claim C8 witness: with an empty registry and a missing record the loaded
agent is `none`, and the reply is the no-agent message with an empty trace. -/
theorem c8_witness :
    (get_dialog_state [] .notFound).agent_id = none ∧
    get_ai_response [] .notFound (.ok ("t2", "out")) "hi" 42 = (noAgentText, []) :=
  ⟨rfl, c8_no_agent_blocks_ai [] .notFound (.ok ("t2", "out")) "hi" 42 rfl⟩

/-- Claim C5: for every free-form turn where the completion client raises an
exception `e`, `get_ai_response` attempts no state write (the trace holds
only the API call itself, no `saveState`) and returns — instead of raising —
an error reply string embedding the failure reason `e`. -/
theorem c5_ai_failure_preserves_state (agents : Agents) (stored : ReadResult)
    (e message : String) (chat_id : Int) (a : String)
    (ha : (get_dialog_state agents stored).agent_id = some a) (hne : a ≠ "") :
    get_ai_response agents stored (.error e) message chat_id =
      (aiErrorText e,
       [.aiCall a message (get_dialog_state agents stored).previous_response_id]) := by
  simp only [get_ai_response]
  rw [ha]
  simp [hne]

/-- Claim C5 witness: a failing client call with reason `boom` leaves a trace
with no `saveState` and returns the error reply embedding `boom`. -/
theorem c5_witness :
    (get_dialog_state [("a1", "Helper")] .notFound).agent_id = some "a1" ∧
    get_ai_response [("a1", "Helper")] .notFound (.error "boom") "hi" 42 =
      (aiErrorText "boom", [.aiCall "a1" "hi" none]) :=
  ⟨rfl, c5_ai_failure_preserves_state [("a1", "Helper")] .notFound "boom" "hi" 42 "a1"
    rfl (by decide)⟩

/-- Claim C1 counterexample: an envelope whose body is a string that is not
valid JSON (the `json.loads` step raises) makes `handler` return a response
with statusCode 500 — refuting the claim that it yields statusCode 200. -/
theorem c1_counterexample :
    (handler [("a1", "Helper")] .notFound (.ok ("t2", "out"))
        (.strBody (.error "Expecting value: line 1 column 1 (char 0)"))).1.statusCode
      = 500 ∧ (500 : Nat) ≠ 200 :=
  ⟨rfl, by decide⟩

/-- Claim C1 amended: an envelope whose decoded body contains neither a
`message` nor a `callback_query` key yields a statusCode 200 response with
an empty action trace (no state mutation, no reply), whether the body
arrived as a string or as an object; a body string that is not valid JSON
is caught at the boundary and yields a statusCode 500 response. -/
theorem c1_amended_malformed_body (agents : Agents) (stored : ReadResult)
    (ai : AiResult) (e : String) (u : Update)
    (hcb : u.callback_query = none) (hmsg : u.message = none) :
    handler agents stored ai (.strBody (.ok u)) =
      ({ statusCode := 200,
         result := some { ok := true, action := none,
                          message := some "No message to process", agent_id := none },
         error := none }, []) ∧
    handler agents stored ai (.objBody u) =
      ({ statusCode := 200,
         result := some { ok := true, action := none,
                          message := some "No message to process", agent_id := none },
         error := none }, []) ∧
    handler agents stored ai (.strBody (.error e)) =
      ({ statusCode := 500, result := none, error := some e }, []) := by
  refine ⟨?_, ?_, rfl⟩ <;>
    simp [handler, process_message, hcb, hmsg, truthyInt]

/-- Claim C1 witness: a string body decoding to an object with neither key
yields the 200 no-op response with an empty trace. -/
theorem c1_witness :
    (Update.mk none none).callback_query = none ∧
    (Update.mk none none).message = none ∧
    handler [("a1", "Helper")] .notFound (.ok ("t2", "out"))
        (.strBody (.ok (Update.mk none none))) =
      ({ statusCode := 200,
         result := some { ok := true, action := none,
                          message := some "No message to process", agent_id := none },
         error := none }, []) :=
  ⟨rfl, rfl,
   (c1_amended_malformed_body [("a1", "Helper")] .notFound (.ok ("t2", "out"))
     "err" (Update.mk none none) rfl rfl).1⟩

/-- Claim C10: for every callback query with a resolvable (non-zero) chat id
and non-empty data not starting with the agent prefix, the handler issues
exactly one acknowledgement with no notification text and nothing else (no
state write, no message sent or edited — the trace is that single action,
for every possible store content, so no state read is observable either),
returns an ok result, and the webhook response has statusCode 200. -/
theorem c10_unknown_callback_is_acked_noop (agents : Agents) (stored : ReadResult)
    (ai : AiResult) (cq : CallbackQuery) (c : Int)
    (hc : cq.chat_id = some c) (hc0 : c ≠ 0) (hd : cq.data ≠ "")
    (hp : (cq.data.take 6 == "agent:") = false) :
    handle_callback_query agents stored cq =
      ({ ok := true, action := none, message := some "Unknown callback",
         agent_id := none },
       [.answerCallback cq.id none]) ∧
    (handler agents stored ai
        (.objBody { callback_query := some cq, message := none })).1.statusCode = 200 := by
  have h1 : handle_callback_query agents stored cq =
      ({ ok := true, action := none, message := some "Unknown callback",
         agent_id := none },
       [.answerCallback cq.id none]) := by
    simp only [handle_callback_query, truthyInt, hc, hp]
    rw [if_neg]
    · simp
    · simp [hc0, hd]
  exact ⟨h1, by simp [handler, process_message, h1]⟩

/-- Claim C10 witness: callback data `noop` at chat 1 is acknowledged once
with no text and produces no other action. -/
theorem c10_witness :
    ({ id := some "cb1", data := "noop", chat_id := some 1,
       message_id := some 7 } : CallbackQuery).chat_id = some 1 ∧
    (1 : Int) ≠ 0 ∧
    ("noop" : String) ≠ "" ∧
    (("noop" : String).take 6 == "agent:") = false ∧
    handle_callback_query [("a1", "Helper")] .notFound
        { id := some "cb1", data := "noop", chat_id := some 1, message_id := some 7 } =
      ({ ok := true, action := none, message := some "Unknown callback",
         agent_id := none },
       [.answerCallback (some "cb1") none]) :=
  ⟨rfl, by decide, by decide, by decide,
   (c10_unknown_callback_is_acked_noop [("a1", "Helper")] .notFound (.ok ("t", "o"))
     { id := some "cb1", data := "noop", chat_id := some 1, message_id := some 7 }
     1 rfl (by decide) (by decide) (by decide)).1⟩

/-- Claim C3 counterexample: a callback query whose data is empty is handled
by the early guard, which issues zero acknowledgements — refuting the claim
that every processed callback branch acknowledges exactly once. -/
theorem c3_counterexample :
    countAcks (handle_callback_query [("a1", "Helper")] .notFound
        { id := some "cb1", data := "", chat_id := some 42,
          message_id := some 7 }).2 = 0 ∧ (0 : Nat) ≠ 1 :=
  ⟨by decide, by decide⟩

/-- Claim C3 amended: the guard branch for a missing/zero chat id or empty
data issues no acknowledgement; every other inbound callback query — agent
absent from the registry, agent equal to the current one, agent differing,
and unrecognized data — is acknowledged exactly once. -/
theorem c3_amended_ack_discipline (agents : Agents) (stored : ReadResult)
    (cq : CallbackQuery) :
    ((¬ truthyInt cq.chat_id ∨ cq.data = "") →
      countAcks (handle_callback_query agents stored cq).2 = 0) ∧
    (truthyInt cq.chat_id → cq.data ≠ "" →
      countAcks (handle_callback_query agents stored cq).2 = 1) := by
  constructor
  · intro h
    simp only [handle_callback_query]
    rw [if_pos h]
    rfl
  · intro h1 h2
    simp only [handle_callback_query]
    rw [if_neg (by simp [h1, h2])]
    split
    · split
      · simp [countAcks, isAck]
      · split <;> simp [countAcks, isAck]
    · simp [countAcks, isAck]

/-- Claim C3 witness: a valid agent-switch callback is acknowledged exactly
once. -/
theorem c3_witness :
    truthyInt (some (42 : Int)) = true ∧
    ("agent:a2" : String) ≠ "" ∧
    countAcks (handle_callback_query [("a1", "H1"), ("a2", "H2")]
        (.ok { previous_response_id := some "t1", message_count := 3,
               agent_id := some "a1" })
        { id := some "cb1", data := "agent:a2", chat_id := some 42,
          message_id := some 7 }).2 = 1 :=
  ⟨rfl, by decide,
   (c3_amended_ack_discipline [("a1", "H1"), ("a2", "H2")]
       (.ok { previous_response_id := some "t1", message_count := 3,
              agent_id := some "a1" })
       { id := some "cb1", data := "agent:a2", chat_id := some 42,
         message_id := some 7 }).2 (by decide) (by decide)⟩

/-- Claim C9 counterexample: with an empty agent registry the `/agents`
command still dispatches to the keyboard-rendering branch (returning the
`agents` action and sending the prompt with an empty inline keyboard) —
refuting the claim that the branch is taken only if the registry is
non-empty. -/
theorem c9_counterexample :
    handle_command [] .notFound 1 "/agents" =
      (some { ok := true, action := some "agents", message := none, agent_id := none },
       [.sendMessage 1 agentsPromptText (some (.inline []))]) := by decide

/-- Claim C9 amended: the agents-list command/label dispatches to the
keyboard-rendering branch regardless of whether the registry is empty; the
branch mutates no session state (its only action is one sendMessage), and
the rendered inline keyboard has exactly one button row per registry entry,
each carrying the agent-selection callback data and marking the currently
selected agent with a check mark. -/
theorem c9_agents_command (agents : Agents) (stored : ReadResult) (chat_id : Int)
    (command : String)
    (hc : command ∈ (["🤖 Агенты", "/agents"] : List String)) :
    handle_command agents stored chat_id command =
      (some { ok := true, action := some "agents", message := none, agent_id := none },
       [.sendMessage chat_id agentsPromptText
          (some (get_agents_inline_keyboard agents
            (get_dialog_state agents stored).agent_id))]) ∧
    (inlineRows (get_agents_inline_keyboard agents
        (get_dialog_state agents stored).agent_id)).length = agents.length ∧
    (∀ i (hi : i < agents.length)
        (hr : i < (inlineRows (get_agents_inline_keyboard agents
          (get_dialog_state agents stored).agent_id)).length),
      (inlineRows (get_agents_inline_keyboard agents
          (get_dialog_state agents stored).agent_id)).get ⟨i, hr⟩ =
        [{ text :=
             if (get_dialog_state agents stored).agent_id = some (agents.get ⟨i, hi⟩).1
             then "✅ " ++ (agents.get ⟨i, hi⟩).2 else (agents.get ⟨i, hi⟩).2
           callback_data := "agent:" ++ (agents.get ⟨i, hi⟩).1 }]) := by
  refine ⟨?_, ?_, ?_⟩
  · have hc2 : command = "🤖 Агенты" ∨ command = "/agents" := by simpa using hc
    rcases hc2 with hc2 | hc2 <;> subst hc2 <;> rfl
  · simp [inlineRows, get_agents_inline_keyboard]
  · intro i hi hr
    simp [inlineRows, get_agents_inline_keyboard, List.get_eq_getElem, List.getElem_map]

/-- Claim C9 witness: `/agents` with a two-agent registry and current agent
`a2` renders two buttons with `a2` marked, and performs no state write. -/
theorem c9_witness :
    (("/agents" : String) ∈ (["🤖 Агенты", "/agents"] : List String)) ∧
    handle_command [("a1", "H1"), ("a2", "H2")]
        (.ok { previous_response_id := some "t1", message_count := 3,
               agent_id := some "a2" }) 42 "/agents" =
      (some { ok := true, action := some "agents", message := none, agent_id := none },
       [.sendMessage 42 agentsPromptText
          (some (.inline [[{ text := "H1", callback_data := "agent:a1" }],
                          [{ text := "✅ H2", callback_data := "agent:a2" }]]))]) :=
  ⟨by decide,
   by
    have h := (c9_agents_command [("a1", "H1"), ("a2", "H2")]
      (.ok { previous_response_id := some "t1", message_count := 3,
             agent_id := some "a2" }) 42 "/agents" (by decide)).1
    rw [h]
    rfl⟩

/-- Claim C6: the new-dialog reset (`/new` and its button label) writes a
state whose `agent_id` equals the loaded one with a `none` continuation
token and a zero message count; and the reset performed on an agent switch
writes `none`/`0` together with the new agent, regardless of the prior
stored values. -/
theorem c6_reset_semantics (agents : Agents) (stored : ReadResult) (chat_id : Int)
    (command : String) (cq : CallbackQuery) (a agent_name : String)
    (hcmd : command ∈ (["🆕 Новый диалог", "/new"] : List String))
    (hc : truthyInt cq.chat_id) (hd : cq.data ≠ "")
    (hpre : (cq.data.take 6 == "agent:") = true) (hdrop : cq.data.drop 6 = a)
    (hreg : lookupAgent agents a = some agent_name)
    (hdiff : (get_dialog_state agents stored).agent_id ≠ some a) :
    handle_command agents stored chat_id command =
      (some { ok := true, action := some "new", message := none, agent_id := none },
       [.saveState chat_id
          { previous_response_id := none, message_count := 0,
            agent_id := (get_dialog_state agents stored).agent_id },
        .sendMessage chat_id newDialogText (some .mainMenu)]) ∧
    handle_callback_query agents stored cq =
      ({ ok := true, action := some "agent_selected", message := none,
         agent_id := some a },
       [.saveState (cq.chat_id.getD 0)
          { previous_response_id := none, message_count := 0, agent_id := some a },
        .answerCallback cq.id (some "✅ Агент изменён! Контекст сброшен."),
        .editMessage (cq.chat_id.getD 0) cq.message_id (selectedAgentText agent_name)
          (some (get_agents_inline_keyboard agents (some a)))]) := by
  constructor
  · have hc2 : command = "🆕 Новый диалог" ∨ command = "/new" := by simpa using hcmd
    rcases hc2 with hc2 | hc2 <;> subst hc2 <;> rfl
  · simp only [handle_callback_query]
    rw [if_neg (by simp [hc, hd]), if_pos hpre, hdrop, hreg]
    rw [if_pos hdiff]
    rfl

/-- Claim C6 witness: switching from `a1` to `a2` writes the reset state
`(none, 0, a2)`, acknowledges with the changed notice, and re-renders the
keyboard. -/
theorem c6_witness :
    (("/new" : String) ∈ (["🆕 Новый диалог", "/new"] : List String)) ∧
    truthyInt (some (42 : Int)) = true ∧
    (("agent:a2" : String) ≠ "") ∧
    (("agent:a2" : String).take 6 == "agent:") = true ∧
    ("agent:a2" : String).drop 6 = "a2" ∧
    lookupAgent [("a1", "H1"), ("a2", "H2")] "a2" = some "H2" ∧
    (get_dialog_state [("a1", "H1"), ("a2", "H2")]
      (.ok { previous_response_id := some "t1", message_count := 3,
             agent_id := some "a1" })).agent_id ≠ some "a2" ∧
    handle_callback_query [("a1", "H1"), ("a2", "H2")]
        (.ok { previous_response_id := some "t1", message_count := 3,
               agent_id := some "a1" })
        { id := some "cb1", data := "agent:a2", chat_id := some 42,
          message_id := some 7 } =
      ({ ok := true, action := some "agent_selected", message := none,
         agent_id := some "a2" },
       [.saveState 42 { previous_response_id := none, message_count := 0,
                        agent_id := some "a2" },
        .answerCallback (some "cb1") (some "✅ Агент изменён! Контекст сброшен."),
        .editMessage 42 (some 7) (selectedAgentText "H2")
          (some (get_agents_inline_keyboard [("a1", "H1"), ("a2", "H2")]
            (some "a2")))]) :=
  ⟨by decide, rfl, by decide, by decide, by decide, by decide, by decide,
   (c6_reset_semantics [("a1", "H1"), ("a2", "H2")]
     (.ok { previous_response_id := some "t1", message_count := 3,
            agent_id := some "a1" }) 0 "/new"
     { id := some "cb1", data := "agent:a2", chat_id := some 42,
       message_id := some 7 } "a2" "H2"
     (by decide) rfl (by decide) (by decide) (by decide) (by decide)
     (by decide)).2⟩

/-- helper: text equal to none of the command literals makes `handle_command`
fall through with no result and no side effect. -/
theorem handle_command_eq_none (agents : Agents) (stored : ReadResult)
    (chat_id : Int) (command : String)
    (h : command ∉ (["/start", "🆕 Новый диалог", "/new", "🤖 Агенты", "/agents",
      "/status", "📊 Статус", "/help", "❓ Помощь"] : List String)) :
    handle_command agents stored chat_id command = (none, []) := by
  simp only [List.mem_cons, List.not_mem_nil, or_false, not_or] at h
  obtain ⟨h1, h2, h3, h4, h5, h6, h7, h8, h9⟩ := h
  simp [handle_command, h1, h2, h3, h4, h5, h6, h7, h8, h9]

/-- Claim C4: for every free-form (non-command) message with a selected agent
whose completion call succeeds with turn id `response_id`, the state written
afterwards carries `response_id` as continuation token, the loaded message
count plus exactly one, and the unchanged agent id; the reply sent to the
user is exactly the client output text. -/
theorem c4_success_advances (agents : Agents) (stored : ReadResult)
    (response_id output_text text : String) (chat : Int) (a : String)
    (hchat : chat ≠ 0) (htext : text ≠ "")
    (hncmd : text ∉ (["/start", "🆕 Новый диалог", "/new", "🤖 Агенты", "/agents",
      "/status", "📊 Статус", "/help", "❓ Помощь"] : List String))
    (ha : (get_dialog_state agents stored).agent_id = some a) (hne : a ≠ "") :
    process_message agents stored (.ok (response_id, output_text))
        { callback_query := none,
          message := some { chat_id := some chat, text := some text } } =
      ({ ok := true, action := none, message := some "Response sent",
         agent_id := none },
       [.sendTyping chat,
        .aiCall a text (get_dialog_state agents stored).previous_response_id,
        .saveState chat
          { previous_response_id := some response_id,
            message_count := (get_dialog_state agents stored).message_count + 1,
            agent_id := some a },
        .sendMessage chat output_text (some .mainMenu)]) := by
  have hai : get_ai_response agents stored (.ok (response_id, output_text)) text chat =
      (output_text,
       [.aiCall a text (get_dialog_state agents stored).previous_response_id,
        .saveState chat
          { previous_response_id := some response_id,
            message_count := (get_dialog_state agents stored).message_count + 1,
            agent_id := some a }]) := by
    simp only [get_ai_response]
    rw [ha]
    simp [hne]
  simp only [process_message, Option.bind, Option.getD]
  rw [if_neg (by simp [truthyInt, hchat, htext])]
  rw [handle_command_eq_none agents stored chat text hncmd, hai]
  rfl

/-- Claim C4 witness: the spec scenario — prior state `("t1", 3, "a1")` and a
client returning `"t2"` — yields the written state `("t2", 4, "a1")` and a
reply equal to the client output. -/
theorem c4_witness :
    ((42 : Int) ≠ 0) ∧ (("привет" : String) ≠ "") ∧
    (("привет" : String) ∉ (["/start", "🆕 Новый диалог", "/new", "🤖 Агенты",
      "/agents", "/status", "📊 Статус", "/help", "❓ Помощь"] : List String)) ∧
    (get_dialog_state [("a1", "H1")]
      (.ok { previous_response_id := some "t1", message_count := 3,
             agent_id := some "a1" })).agent_id = some "a1" ∧
    process_message [("a1", "H1")]
        (.ok { previous_response_id := some "t1", message_count := 3,
               agent_id := some "a1" })
        (.ok ("t2", "ответ"))
        { callback_query := none,
          message := some { chat_id := some 42, text := some "привет" } } =
      ({ ok := true, action := none, message := some "Response sent",
         agent_id := none },
       [.sendTyping 42,
        .aiCall "a1" "привет" (some "t1"),
        .saveState 42 { previous_response_id := some "t2", message_count := 4,
                        agent_id := some "a1" },
        .sendMessage 42 "ответ" (some .mainMenu)]) :=
  ⟨by decide, by decide, by decide, rfl,
   c4_success_advances [("a1", "H1")]
     (.ok { previous_response_id := some "t1", message_count := 3,
            agent_id := some "a1" })
     "t2" "ответ" "привет" 42 "a1" (by decide) (by decide) (by decide) rfl
     (by decide)⟩

/-- helper: every state written by a command branch is a reset -/
theorem saves_of_handle_command (agents : Agents) (stored : ReadResult)
    (chat_id : Int) (command : String) (c : Int) (st : DialogState)
    (h : Action.saveState c st ∈ (handle_command agents stored chat_id command).2) :
    st.previous_response_id = none ∧ st.message_count = 0 := by
  simp only [handle_command] at h
  split at h
  · simp at h
    obtain ⟨-, h⟩ := h
    subst h
    exact ⟨rfl, rfl⟩
  · split at h
    · simp at h
      obtain ⟨-, h⟩ := h
      subst h
      exact ⟨rfl, rfl⟩
    · split at h
      · simp at h
      · split at h
        · simp at h
        · split at h
          · simp at h
          · simp at h

/-- helper: every state written by the callback handler is a reset -/
theorem saves_of_handle_callback_query (agents : Agents) (stored : ReadResult)
    (cq : CallbackQuery) (c : Int) (st : DialogState)
    (h : Action.saveState c st ∈ (handle_callback_query agents stored cq).2) :
    st.previous_response_id = none ∧ st.message_count = 0 := by
  simp only [handle_callback_query] at h
  split at h
  · simp at h
  · split at h
    · split at h
      · simp at h
      · split at h
        · simp at h
          obtain ⟨-, h⟩ := h
          subst h
          exact ⟨rfl, rfl⟩
        · simp at h
    · simp at h

/-- helper: a successful completion writes back the loaded agent id -/
theorem save_agent_of_get_ai_response (agents : Agents) (stored : ReadResult)
    (ai : AiResult) (message : String) (chat_id c : Int) (st : DialogState)
    (h : Action.saveState c st ∈ (get_ai_response agents stored ai message chat_id).2) :
    st.agent_id = (get_dialog_state agents stored).agent_id := by
  simp only [get_ai_response] at h
  split at h
  · simp at h
  · rename_i a hA
    split at h
    · simp at h
    · split at h
      · simp at h
        obtain ⟨-, h⟩ := h
        subst h
        exact hA.symm
      · simp at h

/-- Claim C2: invariant over every state-writing operation of an invocation
(start, new-dialog, agent-selection callback, successful completion): any
written state whose `agent_id` differs from the loaded one has a `none`
continuation token and a zero message count — the continuation token is
never retained across an agent change. -/
theorem c2_agent_change_resets (agents : Agents) (stored : ReadResult)
    (ai : AiResult) (u : Update) (c : Int) (st : DialogState)
    (hmem : Action.saveState c st ∈ (process_message agents stored ai u).2)
    (hchange : st.agent_id ≠ (get_dialog_state agents stored).agent_id) :
    st.previous_response_id = none ∧ st.message_count = 0 := by
  obtain ⟨cb, msg⟩ := u
  rcases cb with _ | cq
  · simp only [process_message] at hmem
    split at hmem
    · simp at hmem
    · split at hmem
      · rename_i result acts heq
        exact saves_of_handle_command agents stored
          ((msg.bind MessageObj.chat_id).getD 0)
          ((msg.bind MessageObj.text).getD "") c st (by rw [heq]; exact hmem)
      · simp at hmem
        exact absurd (save_agent_of_get_ai_response agents stored ai
          ((msg.bind MessageObj.text).getD "")
          ((msg.bind MessageObj.chat_id).getD 0) c st hmem) hchange
  · simp only [process_message] at hmem
    exact saves_of_handle_callback_query agents stored cq c st hmem

/-- Claim C2 witness: the agent-switch callback from `a1` to `a2` writes a
state with a changed agent, and that write is a full reset. -/
theorem c2_witness :
    Action.saveState 42 { previous_response_id := none, message_count := 0,
                          agent_id := some "a2" } ∈
      (process_message [("a1", "H1"), ("a2", "H2")]
        (.ok { previous_response_id := some "t1", message_count := 3,
               agent_id := some "a1" })
        (.ok ("t2", "out"))
        { callback_query := some { id := some "cb1", data := "agent:a2",
                                   chat_id := some 42, message_id := some 7 },
          message := none }).2 ∧
    (some "a2" : Option String) ≠ some "a1" ∧
    ((none : Option String) = none ∧ (0 : Nat) = 0) :=
  ⟨by decide, by decide,
   c2_agent_change_resets [("a1", "H1"), ("a2", "H2")]
     (.ok { previous_response_id := some "t1", message_count := 3,
            agent_id := some "a1" })
     (.ok ("t2", "out"))
     { callback_query := some { id := some "cb1", data := "agent:a2",
                                chat_id := some 42, message_id := some 7 },
       message := none }
     42 { previous_response_id := none, message_count := 0, agent_id := some "a2" }
     (by decide) (by decide)⟩

end BotCreator
